import Mathlib

/-!
Verification of the Lowball Blitz simulation core.

This file gives a shallow embedding of the gameplay-relevant parts of the
source (GameState, the EventBus, the House/Envelope/Agent/PanicPoint
entities, the envelope-hit collision pass of Game, the StreetGenerator and
the slow-motion portion of the SpectacleSystem) and proves the testable
properties of the design document about them.

Modelling conventions:
- JS numbers standing for continuous quantities (timers, coordinates,
  speeds) are embedded as rationals; counters are naturals; `lives` is an
  integer because the source decrements it without a floor.
- Math.random() is embedded as an explicit oracle, a function from a draw
  counter to a rational, threaded through every construction that draws.
- Euclidean-distance comparisons (Math.sqrt(dx*dx+dz*dz) < r in the
  source) are embedded as the equivalent squared comparison
  dx^2 + dz^2 < r^2; both sides of the source comparison are nonnegative,
  so the two are equivalent and no square root is needed.
-/

/-! ## Constants (src/core/Constants.js) -/

def GAMEPLAY_LIVES : ℤ := 3

def GAMEPLAY_AUTO_SPEED : ℚ := 8

def COMBO_TIMEOUT_MS : ℚ := 3000

def COMBO_MULTIPLIER_CAP : ℕ := 10

def HOUSE_SPACING_Z : ℚ := 6

def HOUSE_SPAWN_DISTANCE : ℚ := 80

def HOUSE_CLEANUP_DISTANCE : ℚ := 20

def HOUSE_SHAKE_DURATION : ℚ := 3/10

def HOUSE_SHAKE_INTENSITY : ℚ := 3/20

def HOUSE_FLASH_DURATION : ℚ := 1/5

def STREET_HOUSE_OFFSET_X : ℚ := 7

def STREET_WIDTH : ℚ := 10

def STREET_SEGMENT_LENGTH : ℚ := 40

def STREET_LANE_MARKING_LENGTH : ℚ := 2

def STREET_LANE_MARKING_GAP : ℚ := 2

def ENVELOPE_COLLISION_THRESHOLD : ℚ := 3

def AGENT_SPEED : ℚ := 4

def AGENT_SPAWN_INTERVAL : ℚ := 3

def AGENT_MIN_SPAWN_INTERVAL : ℚ := 1

def AGENT_SPAWN_DISTANCE : ℚ := 50

def AGENT_COLLISION_RADIUS : ℚ := 7/10

def PANIC_POINT_COLLECT_RADIUS : ℚ := 6/5

def SPECTACLE_NEAR_MISS_SLOWMO_FACTOR : ℚ := 7/10

def SPECTACLE_NEAR_MISS_SLOWMO_DURATION : ℚ := 1/10

/-! ## GameState (src/core/GameState.js) -/

/-- The mutable game-state record of src/core/GameState.js.  `_comboTimer`
is the private combo-expiry countdown in milliseconds. -/
structure GameState where
  score : ℕ
  bestScore : ℕ
  started : Bool
  gameOver : Bool
  lives : ℤ
  combo : ℕ
  bestCombo : ℕ
  currentSpeed : ℚ
  housesHit : ℕ
  totalThrown : ℕ
  isMuted : Bool
  comboTimer : ℚ
deriving Repr, DecidableEq

/-- GameState.reset(): reinitializes the session fields; `bestScore`,
`bestCombo` and `isMuted` carry over from the previous state (the source
writes `this.bestScore = this.bestScore || 0`, which is the identity on a
natural number, and only assigns `isMuted` when it is still undefined). -/
def GameState.reset (s : GameState) : GameState :=
  { score := 0
    bestScore := s.bestScore
    started := false
    gameOver := false
    lives := GAMEPLAY_LIVES
    combo := 0
    bestCombo := s.bestCombo
    currentSpeed := GAMEPLAY_AUTO_SPEED
    housesHit := 0
    totalThrown := 0
    isMuted := s.isMuted
    comboTimer := 0 }

/-- The state produced by `new GameState()`: every field is still undefined
when the constructor calls reset(), so `bestScore || 0` and
`bestCombo || 0` yield 0 and `isMuted` is read from storage (modelled as
the `muted` argument, with `false` the fallback on storage failure). -/
def GameState.init (muted : Bool) : GameState :=
  { score := 0
    bestScore := 0
    started := false
    gameOver := false
    lives := GAMEPLAY_LIVES
    combo := 0
    bestCombo := 0
    currentSpeed := GAMEPLAY_AUTO_SPEED
    housesHit := 0
    totalThrown := 0
    isMuted := muted
    comboTimer := 0 }

/-- GameState.addScore(points): clamps the combo multiplier at
COMBO.MULTIPLIER_CAP, floors it at 1, adds the product to score, raises
bestScore when the new score exceeds it, and returns the points awarded. -/
def GameState.addScore (s : GameState) (points : ℕ) : ℕ × GameState :=
  let multiplier := min s.combo COMBO_MULTIPLIER_CAP
  let finalPoints := points * max 1 multiplier
  let score' := s.score + finalPoints
  (finalPoints,
    { s with
      score := score'
      bestScore := if score' > s.bestScore then score' else s.bestScore })

/-- GameState.incrementCombo(): bumps combo, tracks bestCombo, and restarts
the combo countdown at COMBO.TIMEOUT_MS. -/
def GameState.incrementCombo (s : GameState) : GameState :=
  let combo' := s.combo + 1
  { s with
    combo := combo'
    bestCombo := if combo' > s.bestCombo then combo' else s.bestCombo
    comboTimer := COMBO_TIMEOUT_MS }

/-- GameState.resetCombo(): zeroes the combo and its timer. -/
def GameState.resetCombo (s : GameState) : GameState :=
  { s with combo := 0, comboTimer := 0 }

/-- GameState.updateComboTimer(deltaMs): while a combo is running, counts
the timer down; when it crosses zero the combo is reset and `true` is
returned exactly at that call. -/
def GameState.updateComboTimer (s : GameState) (deltaMs : ℚ) : Bool × GameState :=
  if 0 < s.combo ∧ 0 < s.comboTimer then
    let t := s.comboTimer - deltaMs
    if t ≤ 0 then (true, ({ s with comboTimer := t }).resetCombo)
    else (false, { s with comboTimer := t })
  else (false, s)

/-- GameState.loseLife(): decrements lives (no floor in the source) and
reports whether the count is now at or below zero. -/
def GameState.loseLife (s : GameState) : Bool × GameState :=
  let lives' := s.lives - 1
  (decide (lives' ≤ 0), { s with lives := lives' })

/-! ## Operation sequences over GameState, for the combo/timer invariant -/

/-- One call to a GameState mutator. -/
inductive GSOp where
  | reset : GSOp
  | addScore (points : ℕ) : GSOp
  | incrementCombo : GSOp
  | resetCombo : GSOp
  | updateComboTimer (deltaMs : ℚ) : GSOp
  | loseLife : GSOp

/-- Apply one mutator call, discarding the returned value. -/
def GSOp.apply (op : GSOp) (s : GameState) : GameState :=
  match op with
  | .reset => s.reset
  | .addScore p => (s.addScore p).2
  | .incrementCombo => s.incrementCombo
  | .resetCombo => s.resetCombo
  | .updateComboTimer d => (s.updateComboTimer d).2
  | .loseLife => (s.loseLife).2

/-- Run a sequence of mutator calls from a starting state. -/
def runOps (ops : List GSOp) (s : GameState) : GameState :=
  ops.foldl (fun t op => op.apply t) s

/-- The documented invariant: a combo is running iff its timer is running. -/
def comboTimerInv (s : GameState) : Prop :=
  0 < s.combo ↔ 0 < s.comboTimer

/-! ## EventBus (src/core/EventBus.js) -/

/-- A subscriber callback. A JS callback mutates shared state and may
throw; it is embedded as a function from the shared state and the event
payload to the state after the call together with the message of the
thrown error, if any (mutations made before a throw persist, as in JS). -/
def EBCallback (σ α : Type) : Type := σ → α → σ × Option String

/-- The string-keyed listener dictionary of the EventBus; a topic that was
never subscribed maps to the empty list, so emitting on it is a no-op. -/
structure EventBus (σ α : Type) where
  listeners : String → List (EBCallback σ α)

/-- EventBus.on(event, callback): pushes the callback onto the end of the
topic's listener array (creating the array when absent). -/
def EventBus.on {σ α : Type} (bus : EventBus σ α) (event : String)
    (cb : EBCallback σ α) : EventBus σ α :=
  ⟨fun e => if e = event then bus.listeners e ++ [cb] else bus.listeners e⟩

/-- The forEach body of EventBus.emit: run each callback in order on the
shared state; a thrown error is caught and logged (collected into the
returned log) and iteration continues with the next callback. -/
def runCallbacks {σ α : Type} (cbs : List (EBCallback σ α)) (data : α)
    (s : σ) : σ × List String :=
  match cbs with
  | [] => (s, [])
  | cb :: rest =>
    let r := cb s data
    let rr := runCallbacks rest data r.1
    (rr.1, r.2.toList ++ rr.2)

/-- EventBus.emit(event, data): synchronous delivery to the topic's
current listener list. -/
def EventBus.emit {σ α : Type} (bus : EventBus σ α) (event : String)
    (data : α) (s : σ) : σ × List String :=
  runCallbacks (bus.listeners event) data s

/-! ## Entity positions and the XZ-plane collision predicates -/

/-- A THREE.Vector3 position. -/
structure Vec3 where
  x : ℚ
  y : ℚ
  z : ℚ
deriving Repr, DecidableEq

/-- Replace only the vertical coordinate of a position. -/
def Vec3.withY (v : Vec3) (yNew : ℚ) : Vec3 :=
  { v with y := yNew }

/-- Which side of the street a house stands on. -/
inductive Side where
  | left : Side
  | right : Side
deriving Repr, DecidableEq

/-- House entity state (src/entities/House.js): mesh position (shake
mutates x around baseX, y stays 0), the one-way hit flag, the shake and
flash timers, and the body/roof colors (the flash turns the body yellow
and its expiry dims it). -/
structure House where
  pos : Vec3
  baseX : ℚ
  side : Side
  isHit : Bool
  bodyColor : ℕ
  roofColor : ℕ
  shakeTimer : ℚ
  flashTimer : ℚ
deriving Repr, DecidableEq

/-- The Envelope projectile fields read and written by the collision pass
(src/entities/Envelope.js): its mesh position and alive flag. -/
structure Envelope where
  pos : Vec3
  alive : Bool
deriving Repr, DecidableEq

/-- The Agent obstacle (src/entities/Agent.js): mesh position, liveness
and the one-shot collision latch. The walking-animation phase and the
cosmetic y-bob and mesh sway it drives are read by nothing in the
simulation and are not modelled. -/
structure Agent where
  pos : Vec3
  alive : Bool
  hasCollided : Bool
deriving Repr, DecidableEq

/-- The PanicPoint pickup fields read by collection
(src/entities/PanicPoint.js). -/
structure PanicPoint where
  pos : Vec3
  alive : Bool
  collected : Bool
  timeAlive : ℚ
  flashTimer : ℚ
deriving Repr, DecidableEq

/-- Envelope.checkHouse(house): dead envelopes and hit houses never
collide; otherwise the XZ-plane distance of the two meshes is compared
with ENVELOPE.COLLISION_THRESHOLD (squared form, see the file header). -/
def Envelope.checkHouse (e : Envelope) (h : House) : Bool :=
  if !e.alive || h.isHit then false
  else
    decide ((e.pos.x - h.pos.x) ^ 2 + (e.pos.z - h.pos.z) ^ 2
      < ENVELOPE_COLLISION_THRESHOLD ^ 2)

/-- Agent.checkPlayer(playerPos): XZ-plane distance against
AGENT.COLLISION_RADIUS, gated on liveness and the collision latch. -/
def Agent.checkPlayer (a : Agent) (playerPos : Vec3) : Bool :=
  if !a.alive || a.hasCollided then false
  else
    decide ((a.pos.x - playerPos.x) ^ 2 + (a.pos.z - playerPos.z) ^ 2
      < AGENT_COLLISION_RADIUS ^ 2)

/-- PanicPoint.checkPlayer(playerPos): XZ-plane distance against
PANIC_POINT.COLLECT_RADIUS, gated on the collected and alive flags. -/
def PanicPoint.checkPlayer (p : PanicPoint) (playerPos : Vec3) : Bool :=
  if p.collected || !p.alive then false
  else
    decide ((p.pos.x - playerPos.x) ^ 2 + (p.pos.z - playerPos.z) ^ 2
      < PANIC_POINT_COLLECT_RADIUS ^ 2)

/-! ## House.hit and the envelope-hit collision pass (src/core/Game.js) -/

/-- House.hit(): a one-way transition — a house that is already hit is
left untouched; otherwise the hit flag is set, the shake and flash timers
start, and the body flashes yellow. -/
def House.hit (h : House) : House :=
  if h.isHit then h
  else
    { h with
      isHit := true
      shakeTimer := HOUSE_SHAKE_DURATION
      flashTimer := HOUSE_FLASH_DURATION
      bodyColor := 0xffff00 }

/-- The events Game._checkEnvelopeHits publishes on the bus, with their
payloads. -/
inductive GameEvent where
  | comboChanged (combo : ℕ) : GameEvent
  | scoreChanged (score earned : ℕ) : GameEvent
  | houseHit (x z : ℚ) (combo : ℕ) : GameEvent
  | spectacleHit (combo : ℕ) : GameEvent
  | spectacleCombo (combo : ℕ) : GameEvent
  | spectacleStreak (combo : ℕ) : GameEvent
  | homeownerSpawned (x z : ℚ) : GameEvent
deriving Repr, DecidableEq

/-- Recognize a HOUSE_HIT event. -/
def GameEvent.isHouseHit : GameEvent → Bool
  | .houseHit _ _ _ => true
  | _ => false

/-- The pieces of Game state the envelope-hit pass reads and writes: the
house pool (the JS nearby list holds references into it, so hits are
recorded in place), the game state, the events published during the pass,
and the homeowners spawned from hit houses (position and side). -/
structure HitScanState where
  houses : List House
  gs : GameState
  events : List GameEvent
  owners : List (Vec3 × Side)
deriving Repr, DecidableEq

/-- StreetGenerator.getHousesInRange(z, range) as used by the collision
pass: because the JS array holds references into the house pool, it is
embedded as the list of pool indices whose house is unhit and within
range at the moment the list is built. -/
def getHousesInRangeIdx (houses : List House) (z range : ℚ) : List ℕ :=
  (List.range houses.length).filter fun i =>
    match houses[i]? with
    | some h => !h.isHit && decide (|h.pos.z - z| < range)
    | none => false

/-- The inner house loop of Game._checkEnvelopeHits for one envelope:
walks the nearby list, skips houses hit earlier in the same pass, and on
the first geometric overlap marks the house hit, retires the envelope,
bumps housesHit, increments the combo, awards score, publishes the events
in source order, spawns one homeowner, and breaks out of the scan. -/
def scanHouses (e : Envelope) (idxs : List ℕ) (st : HitScanState) :
    Envelope × HitScanState :=
  match idxs with
  | [] => (e, st)
  | i :: rest =>
    match st.houses[i]? with
    | none => scanHouses e rest st
    | some h =>
      if h.isHit then scanHouses e rest st
      else if e.checkHouse h then
        let gs1 := { st.gs with housesHit := st.gs.housesHit + 1 }
        let gs2 := gs1.incrementCombo
        let award := gs2.addScore 1
        let gs3 := award.2
        ({ e with alive := false },
          { houses := st.houses.set i h.hit
            gs := gs3
            events := st.events
              ++ [GameEvent.comboChanged gs2.combo,
                  GameEvent.scoreChanged gs3.score award.1,
                  GameEvent.houseHit h.pos.x h.pos.z gs3.combo,
                  GameEvent.spectacleHit gs3.combo]
              ++ (if 3 ≤ gs3.combo then [GameEvent.spectacleCombo gs3.combo] else [])
              ++ (if 5 ≤ gs3.combo then [GameEvent.spectacleStreak gs3.combo] else [])
              ++ [GameEvent.homeownerSpawned h.pos.x h.pos.z]
            owners := st.owners ++ [(h.pos, h.side)] })
      else scanHouses e rest st

/-- Game._checkEnvelopeHits: builds the nearby-house reference list once
(unhit houses within 50 units of the player), then gives each live
envelope one scan over it; a hit recorded by an earlier envelope is
visible to the later envelopes of the same pass. -/
def checkEnvelopeHits (playerZ : ℚ) (envelopes : List Envelope)
    (st : HitScanState) : List Envelope × HitScanState :=
  let nearby := getHousesInRangeIdx st.houses playerZ 50
  envelopes.foldl
    (fun acc e =>
      if !e.alive then (acc.1 ++ [e], acc.2)
      else
        let r := scanHouses e nearby acc.2
        (acc.1 ++ [r.1], r.2))
    ([], st)

/-- A concrete unhit house for the C2 scenario. -/
def sampleHouse : House :=
  { pos := ⟨7, 0, -10⟩
    baseX := 7
    side := Side.right
    isHit := false
    bodyColor := 0x7eb8d8
    roofColor := 0x8b4513
    shakeTimer := 0
    flashTimer := 0 }

/-- A concrete live envelope overlapping sampleHouse. -/
def sampleEnvelopeA : Envelope := { pos := ⟨6, 1, -10⟩, alive := true }

/-- A second concrete live envelope overlapping sampleHouse. -/
def sampleEnvelopeB : Envelope := { pos := ⟨7, 2, -11⟩, alive := true }

/-! ## SpectacleSystem slow-motion (src/systems/SpectacleSystem.js) -/

/-- The slow-motion subsystem of the SpectacleSystem together with the
gameState.currentSpeed cell it reads and writes: the countdown timer, its
duration, the speed saved when the effect started, and whether a player
position has been recorded yet (the near-miss handler returns early when
it has not).  The particle/flash/shake state of the system is presentation
only and is not read by this logic. -/
structure SlowMoState where
  currentSpeed : ℚ
  slowMoTimer : ℚ
  slowMoDuration : ℚ
  slowMoOriginalSpeed : ℚ
  hasLastPlayerPos : Bool
deriving Repr, DecidableEq

/-- SpectacleSystem._onNearMiss, slow-motion portion: with a player
position recorded and no slow-motion already active, save the current
speed, scale it by NEAR_MISS_SLOWMO_FACTOR and start the timer. -/
def SlowMoState.onNearMiss (s : SlowMoState) : SlowMoState :=
  if !s.hasLastPlayerPos then s
  else if s.slowMoTimer ≤ 0 then
    { s with
      slowMoOriginalSpeed := s.currentSpeed
      currentSpeed := s.currentSpeed * SPECTACLE_NEAR_MISS_SLOWMO_FACTOR
      slowMoTimer := SPECTACLE_NEAR_MISS_SLOWMO_DURATION
      slowMoDuration := SPECTACLE_NEAR_MISS_SLOWMO_DURATION }
  else s

/-- SpectacleSystem.update, slow-motion recovery: while the timer runs,
count it down; when it crosses zero, assign the saved original speed back
to gameState.currentSpeed. -/
def SlowMoState.updateSlowMo (s : SlowMoState) (delta : ℚ) : SlowMoState :=
  if 0 < s.slowMoTimer then
    let t := s.slowMoTimer - delta
    if t ≤ 0 then { s with slowMoTimer := t, currentSpeed := s.slowMoOriginalSpeed }
    else { s with slowMoTimer := t }
  else s

/-- A concrete pre-near-miss slow-motion state with speed 8 and no
slow-motion active. -/
def sampleSlowMo : SlowMoState :=
  { currentSpeed := 8
    slowMoTimer := 0
    slowMoDuration := 0
    slowMoOriginalSpeed := 0
    hasLastPlayerPos := true }

/-! ## StreetGenerator (src/systems/StreetGenerator.js) -/

/-- HOUSE.COLORS from Constants.js. -/
def HOUSE_COLORS : List ℕ :=
  [0x7eb8d8, 0xf0e68c, 0xf4a6b8, 0x90c695, 0xf5f5f5, 0xd2b48c, 0xe8c4a0, 0xb0c4de]

/-- HOUSE.ROOF_COLORS from Constants.js. -/
def HOUSE_ROOF_COLORS : List ℕ :=
  [0x8b4513, 0x696969, 0xa0522d, 0x556b2f, 0x800000]

/-- The House constructor (new House(x, z, side)): consumes two random
draws for the body and roof colors; the mesh starts at (x, 0, z) with the
hit flag clear and the effect timers at zero.  Returns the house and the
advanced draw counter. -/
def House.create (rng : ℕ → ℚ) (ridx : ℕ) (x z : ℚ) (side : Side) :
    House × ℕ :=
  let bodyColor := HOUSE_COLORS.getD (⌊rng ridx * (HOUSE_COLORS.length : ℚ)⌋).toNat 0
  let roofColor :=
    HOUSE_ROOF_COLORS.getD (⌊rng (ridx + 1) * (HOUSE_ROOF_COLORS.length : ℚ)⌋).toNat 0
  ({ pos := ⟨x, 0, z⟩
     baseX := x
     side := side
     isHit := false
     bodyColor := bodyColor
     roofColor := roofColor
     shakeTimer := 0
     flashTimer := 0 }, ridx + 2)

/-- House.update(delta): while shaking, count the shake timer down and
jitter the mesh x around baseX with one random draw, snapping back when
the shake ends; while flashing, count the flash timer down and dim the
body to 0x999999 when it ends.  Returns the house and the advanced draw
counter. -/
def House.update (h : House) (delta : ℚ) (rng : ℕ → ℚ) (ridx : ℕ) :
    House × ℕ :=
  let su :=
    if 0 < h.shakeTimer then
      let t := h.shakeTimer - delta
      let intensity := HOUSE_SHAKE_INTENSITY * (t / HOUSE_SHAKE_DURATION)
      let x := h.baseX + (rng ridx - 1/2) * intensity * 2
      let h1 := { h with shakeTimer := t, pos := { h.pos with x := x } }
      (if t ≤ 0 then { h1 with pos := { h1.pos with x := h1.baseX } } else h1,
        ridx + 1)
    else (h, ridx)
  let h2 := su.1
  if 0 < h2.flashTimer then
    let t2 := h2.flashTimer - delta
    (if t2 ≤ 0 then { h2 with flashTimer := t2, bodyColor := 0x999999 }
     else { h2 with flashTimer := t2 }, su.2)
  else (h2, su.2)

/-- The house-update loop of StreetGenerator.update, threading the draw
counter through each House.update. -/
def updateHouses : List House → ℚ → (ℕ → ℚ) → ℕ → List House × ℕ
  | [], _, _, ridx => ([], ridx)
  | h :: rest, delta, rng, ridx =>
    let hu := h.update delta rng ridx
    let ru := updateHouses rest delta rng hu.2
    (hu.1 :: ru.1, ru.2)

/-- Agent.update(delta, playerZ): dead agents do nothing; otherwise walk
toward the player (+Z) at AGENT.SPEED and self-retire once more than 10
units behind the player.  The cosmetic walk bob/sway is not modelled. -/
def Agent.update (a : Agent) (delta playerZ : ℚ) : Agent :=
  if !a.alive then a
  else
    let a1 := { a with pos := { a.pos with z := a.pos.z + AGENT_SPEED * delta } }
    if playerZ + 10 < a1.pos.z then { a1 with alive := false } else a1

/-- The StreetGenerator state: the entity pools it owns, the generation
high-water mark for house rows, the trailing end of the street surface,
the agent spawn countdown, and the Math.random() oracle with its draw
counter. -/
structure StreetGen where
  houses : List House
  agents : List Agent
  streetSegments : List ℚ
  generatedZ : ℚ
  lastStreetEnd : ℚ
  agentTimer : ℚ
  rng : ℕ → ℚ
  ridx : ℕ

/-- StreetGenerator._generateRow(z): each side of the street independently
gets a house with probability 0.8 (one random draw per side, taken in
order; a placed house consumes two more draws for its colors). -/
def StreetGen.generateRow (g : StreetGen) (z : ℚ) : StreetGen :=
  let r1 := g.rng g.ridx
  let g1 : StreetGen := { g with ridx := g.ridx + 1 }
  let g2 : StreetGen :=
    if 1/5 < r1 then
      let hc := House.create g1.rng g1.ridx (-STREET_HOUSE_OFFSET_X) z Side.left
      { g1 with houses := g1.houses ++ [hc.1], ridx := hc.2 }
    else g1
  let r2 := g2.rng g2.ridx
  let g3 : StreetGen := { g2 with ridx := g2.ridx + 1 }
  if 1/5 < r2 then
    let hc := House.create g3.rng g3.ridx STREET_HOUSE_OFFSET_X z Side.right
    { g3 with houses := g3.houses ++ [hc.1], ridx := hc.2 }
  else g3

lemma ceil_div_toNat_lt {a b step : ℚ} (hstep : 0 < step) (h : b < a) :
    (⌈(a - step - b) / step⌉).toNat < (⌈(a - b) / step⌉).toNat := by
  have h0 : step ≠ 0 := ne_of_gt hstep
  have hx : 0 < (a - b) / step := div_pos (by linarith) hstep
  have hc : 0 < ⌈(a - b) / step⌉ := Int.ceil_pos.mpr hx
  have heq : (a - step - b) / step = (a - b) / step - 1 := by
    rw [show a - step - b = (a - b) - step by ring, sub_div, div_self h0]
  rw [heq, Int.ceil_sub_one]
  omega

/-- The house-row while loop shared by _generateInitial and update:
while generatedZ is above the bound, generate a row at generatedZ and
advance the high-water mark forward (more negative) by HOUSE.SPACING_Z. -/
def genRowsLoop (g : StreetGen) (bound : ℚ) : StreetGen :=
  if h : bound < g.generatedZ then
    genRowsLoop
      { g.generateRow g.generatedZ with
          generatedZ := g.generatedZ - HOUSE_SPACING_Z } bound
  else g
termination_by (⌈(g.generatedZ - bound) / HOUSE_SPACING_Z⌉).toNat
decreasing_by
  exact ceil_div_toNat_lt (by norm_num [HOUSE_SPACING_Z]) h

/-- The pure trajectory of the high-water mark under genRowsLoop. -/
def zLoop (z bound : ℚ) : ℚ :=
  if h : bound < z then zLoop (z - HOUSE_SPACING_Z) bound else z
termination_by (⌈(z - bound) / HOUSE_SPACING_Z⌉).toNat
decreasing_by
  exact ceil_div_toNat_lt (by norm_num [HOUSE_SPACING_Z]) h

/-- The z positions of the dashed center-line markings placed by
_generateStreetSurface between startZ and endZ. -/
def laneMarkZs (z endZ : ℚ) : List ℚ :=
  if h : endZ < z then
    z :: laneMarkZs (z - (STREET_LANE_MARKING_LENGTH + STREET_LANE_MARKING_GAP)) endZ
  else []
termination_by
  (⌈(z - endZ) / (STREET_LANE_MARKING_LENGTH + STREET_LANE_MARKING_GAP)⌉).toNat
decreasing_by
  exact ceil_div_toNat_lt
    (by norm_num [STREET_LANE_MARKING_LENGTH, STREET_LANE_MARKING_GAP]) h

/-- StreetGenerator._generateStreetSurface(startZ, endZ): appends the
road, the two sidewalks and the two grass strips (all centered between
startZ and endZ) plus the lane markings to the segment pool. -/
def StreetGen.generateStreetSurface (g : StreetGen) (startZ endZ : ℚ) :
    StreetGen :=
  let centerZ := (startZ + endZ) / 2
  { g with
    streetSegments :=
      g.streetSegments ++ [centerZ, centerZ, centerZ, centerZ, centerZ]
        ++ laneMarkZs startZ endZ }

/-- StreetGenerator._generateInitial(): pre-fill house rows down to
-HOUSE.SPAWN_DISTANCE, then lay the initial street surface from z=20 to
lastStreetEnd. -/
def StreetGen.generateInitial (g : StreetGen) : StreetGen :=
  let g1 := genRowsLoop g (-HOUSE_SPAWN_DISTANCE)
  g1.generateStreetSurface 20 g1.lastStreetEnd

/-- The StreetGenerator constructor: empty pools, generatedZ = 10,
lastStreetEnd = -SPAWN_DISTANCE - 20, agent timer at its initial
interval, then _generateInitial. -/
def StreetGen.init (rng : ℕ → ℚ) : StreetGen :=
  StreetGen.generateInitial
    { houses := []
      agents := []
      streetSegments := []
      generatedZ := 10
      lastStreetEnd := -HOUSE_SPAWN_DISTANCE - 20
      agentTimer := AGENT_SPAWN_INTERVAL
      rng := rng
      ridx := 0 }

/-- StreetGenerator.reset(): dispose all owned entities and segments,
restore the construction-time values of generatedZ, lastStreetEnd and the
agent timer, and re-run _generateInitial (the random oracle and its
counter continue). -/
def StreetGen.reset (g : StreetGen) : StreetGen :=
  StreetGen.generateInitial
    { g with
      houses := []
      agents := []
      streetSegments := []
      generatedZ := 10
      lastStreetEnd := -HOUSE_SPAWN_DISTANCE - 20
      agentTimer := AGENT_SPAWN_INTERVAL }

/-- StreetGenerator._spawnAgent(playerZ): one agent at a random lane
offset, AGENT.SPAWN_DISTANCE ahead of the player.  Two draws are
consumed: the lane offset and the agent's walk-animation phase. -/
def StreetGen.spawnAgent (g : StreetGen) (playerZ : ℚ) : StreetGen :=
  let laneX := (g.rng g.ridx - 1/2) * (STREET_WIDTH - 1)
  let agent : Agent :=
    { pos := ⟨laneX, 0, playerZ - AGENT_SPAWN_DISTANCE⟩
      alive := true
      hasCollided := false }
  { g with agents := g.agents ++ [agent], ridx := g.ridx + 2 }

/-- StreetGenerator._cleanup(playerZ): drop houses more than
CLEANUP_DISTANCE behind the player, dead agents, and street segments more
than 40 behind the player. -/
def StreetGen.cleanup (g : StreetGen) (playerZ : ℚ) : StreetGen :=
  { g with
    houses := g.houses.filter fun h =>
      !decide (playerZ + HOUSE_CLEANUP_DISTANCE < h.pos.z)
    agents := g.agents.filter fun a => a.alive
    streetSegments := g.streetSegments.filter fun z => !decide (playerZ + 40 < z) }

/-- StreetGenerator.getHousesInRange(z, range). -/
def StreetGen.getHousesInRange (g : StreetGen) (z range : ℚ) : List House :=
  g.houses.filter fun h => !h.isHit && decide (|h.pos.z - z| < range)

/-- StreetGenerator.getAgentsInRange(z, range). -/
def StreetGen.getAgentsInRange (g : StreetGen) (z range : ℚ) : List Agent :=
  g.agents.filter fun a =>
    a.alive && !a.hasCollided && decide (|a.pos.z - z| < range)

/-- StreetGenerator.update(delta, playerZ): refill house rows ahead of the
player, extend the street surface when the trailing window underruns,
update the houses (threading the random oracle), run the agent spawn
countdown (spawning and re-arming with a speed-shrunk, jittered
interval), advance the agents, and clean up behind the player.  `speed`
is gameState.currentSpeed, which the source reads for the interval. -/
def StreetGen.update (g : StreetGen) (delta playerZ speed : ℚ) : StreetGen :=
  let g1 : StreetGen := genRowsLoop g (playerZ - HOUSE_SPAWN_DISTANCE)
  let g2 : StreetGen :=
    if playerZ - 40 < g1.lastStreetEnd then
      let newEnd := g1.lastStreetEnd - STREET_SEGMENT_LENGTH
      { g1.generateStreetSurface g1.lastStreetEnd newEnd with
          lastStreetEnd := newEnd }
    else g1
  let hu := updateHouses g2.houses delta g2.rng g2.ridx
  let g3 : StreetGen := { g2 with houses := hu.1, ridx := hu.2 }
  let g4 : StreetGen := { g3 with agentTimer := g3.agentTimer - delta }
  let g5 : StreetGen :=
    if g4.agentTimer ≤ 0 then
      let gsp := g4.spawnAgent playerZ
      let interval :=
        max AGENT_MIN_SPAWN_INTERVAL
          (AGENT_SPAWN_INTERVAL * (1 - speed / 25 * (1/2)))
      { gsp with
        agentTimer := interval + (gsp.rng gsp.ridx - 1/2) * interval * (1/2)
        ridx := gsp.ridx + 1 }
    else g4
  let g6 : StreetGen :=
    { g5 with agents := g5.agents.map fun a => a.update delta playerZ }
  g6.cleanup playerZ

/-! ## Lemmas and claim theorems -/

lemma comboTimerInv_reset (s : GameState) : comboTimerInv s.reset := by
  simp [comboTimerInv, GameState.reset]

lemma comboTimerInv_init (muted : Bool) : comboTimerInv (GameState.init muted) := by
  simp [comboTimerInv, GameState.init]

lemma comboTimerInv_step (op : GSOp) (s : GameState) (h : comboTimerInv s) :
    comboTimerInv (op.apply s) := by
  cases op with
  | reset => exact comboTimerInv_reset s
  | addScore p =>
      simpa [comboTimerInv, GSOp.apply, GameState.addScore] using h
  | incrementCombo =>
      simp [comboTimerInv, GSOp.apply, GameState.incrementCombo, COMBO_TIMEOUT_MS]
  | resetCombo =>
      simp [comboTimerInv, GSOp.apply, GameState.resetCombo]
  | updateComboTimer d =>
      unfold comboTimerInv
      simp only [GSOp.apply, GameState.updateComboTimer]
      split
      · rename_i hrun
        split
        · simp [GameState.resetCombo]
        · rename_i hpos
          show 0 < s.combo ↔ 0 < s.comboTimer - d
          constructor
          · intro _
            exact not_le.mp hpos
          · intro _
            exact hrun.1
      · exact h
  | loseLife =>
      simpa [comboTimerInv, GSOp.apply, GameState.loseLife] using h

lemma comboTimerInv_runOps (ops : List GSOp) (s : GameState)
    (h : comboTimerInv s) : comboTimerInv (runOps ops s) := by
  induction ops generalizing s with
  | nil => exact h
  | cons op rest ih =>
      simpa [runOps] using ih (op.apply s) (comboTimerInv_step op s h)

lemma updateComboTimer_combo_zero (t : GameState) (d : ℚ) (h : t.combo = 0) :
    t.updateComboTimer d = (false, t) := by
  simp [GameState.updateComboTimer, h]

lemma updateComboTimer_true_resets (t : GameState) (d : ℚ) :
    (t.updateComboTimer d).1 = true → (t.updateComboTimer d).2.combo = 0 := by
  unfold GameState.updateComboTimer
  dsimp only
  split
  · split
    · intro _
      simp [GameState.resetCombo]
    · intro h
      simp at h
  · intro h
    simp at h

/-- C1: addScore(base) returns base * max(1, min(combo, MULTIPLIER_CAP)),
adds exactly that amount to score, and the award never exceeds base times
the cap; at combo = 15 the effective multiplier is exactly the cap 10. -/
theorem addScore_multiplier_capped (s : GameState) (base : ℕ) :
    (s.addScore base).1 = base * max 1 (min s.combo COMBO_MULTIPLIER_CAP)
    ∧ (s.addScore base).2.score = s.score + base * max 1 (min s.combo COMBO_MULTIPLIER_CAP)
    ∧ (s.addScore base).1 ≤ base * COMBO_MULTIPLIER_CAP
    ∧ (({ s with combo := 15 }).addScore base).1 = base * 10 := by
  refine ⟨rfl, rfl, ?_, ?_⟩
  · have hcap : max 1 (min s.combo COMBO_MULTIPLIER_CAP) ≤ COMBO_MULTIPLIER_CAP := by
      have h1 : (1 : ℕ) ≤ COMBO_MULTIPLIER_CAP := by norm_num [COMBO_MULTIPLIER_CAP]
      exact max_le h1 (min_le_right _ _)
    calc (s.addScore base).1
        = base * max 1 (min s.combo COMBO_MULTIPLIER_CAP) := rfl
      _ ≤ base * COMBO_MULTIPLIER_CAP := Nat.mul_le_mul_left base hcap
  · norm_num [GameState.addScore, COMBO_MULTIPLIER_CAP]

/-- C3 counterexample: loseLife() has no floor in the source: invoked on a
state whose lives count is already 0 it drives lives to -1, refuting the
claim that lives can never become negative. -/
theorem loseLife_no_floor_counterexample :
    ((({ GameState.init false with lives := 0 } : GameState).loseLife).2.lives = -1)
    ∧ ((({ GameState.init false with lives := 0 } : GameState).loseLife).2.lives < 0) := by
  constructor <;> decide

/-- C3 amended: loseLife() decrements lives by exactly one, with no floor,
and returns whether the decremented count is at or below zero; at lives=1
it returns true and leaves lives=0, and at lives=0 it returns true and
leaves lives=-1. -/
theorem loseLife_decrements (s : GameState) :
    (s.loseLife).2.lives = s.lives - 1
    ∧ (s.loseLife).1 = decide (s.lives - 1 ≤ 0)
    ∧ (s.lives = 1 → (s.loseLife).1 = true ∧ (s.loseLife).2.lives = 0)
    ∧ (s.lives = 0 → (s.loseLife).1 = true ∧ (s.loseLife).2.lives = -1) := by
  refine ⟨rfl, rfl, ?_, ?_⟩ <;> intro h <;>
    constructor <;> norm_num [GameState.loseLife, h]

/-- Witness for the amended C3 theorem at the concrete state lives=1. -/
theorem loseLife_decrements_witness :
    ((({ GameState.init false with lives := 1 } : GameState).loseLife).1 = true)
    ∧ ((({ GameState.init false with lives := 1 } : GameState).loseLife).2.lives = 0) :=
  (loseLife_decrements { GameState.init false with lives := 1 }).2.2.1 rfl

/-- C4: updateComboTimer decrements only while a combo is running (combo=0
leaves the state untouched and returns false); with combo=1 and timer=3000
the calls with delta 3000ms then 1ms return true then false; and once a
call has returned true, every further call returns false as long as the
combo has not been incremented again. -/
theorem updateComboTimer_fires_once (s : GameState)
    (hc : s.combo = 1) (ht : s.comboTimer = 3000) :
    (s.updateComboTimer 3000).1 = true
    ∧ (((s.updateComboTimer 3000).2).updateComboTimer 1).1 = false
    ∧ (∀ d : ℚ, (((s.updateComboTimer 3000).2).updateComboTimer d).1 = false)
    ∧ (∀ (t : GameState) (d : ℚ), t.combo = 0 → t.updateComboTimer d = (false, t))
    ∧ (∀ (t : GameState) (d : ℚ), (t.updateComboTimer d).1 = true →
        ∀ e : ℚ, (((t.updateComboTimer d).2).updateComboTimer e).1 = false) := by
  have hfirst : (s.updateComboTimer 3000).1 = true := by
    norm_num [GameState.updateComboTimer, hc, ht]
  have hafter : ∀ d : ℚ, (((s.updateComboTimer 3000).2).updateComboTimer d).1 = false := by
    intro d
    rw [updateComboTimer_combo_zero _ d (updateComboTimer_true_resets s 3000 hfirst)]
  refine ⟨hfirst, hafter 1, hafter, ?_, ?_⟩
  · intro t d h
    exact updateComboTimer_combo_zero t d h
  · intro t d h e
    rw [updateComboTimer_combo_zero _ e (updateComboTimer_true_resets t d h)]

/-- Witness for C4 at the concrete state combo=1, timer=3000. -/
theorem updateComboTimer_fires_once_witness :
    ((({ GameState.init false with combo := 1, comboTimer := 3000 } : GameState).updateComboTimer 3000).1 = true)
    ∧ (((({ GameState.init false with combo := 1, comboTimer := 3000 } : GameState).updateComboTimer 3000).2).updateComboTimer 1).1 = false := by
  have h := updateComboTimer_fires_once
    { GameState.init false with combo := 1, comboTimer := 3000 } rfl rfl
  exact ⟨h.1, h.2.1⟩

/-- C5: the invariant combo > 0 iff comboTimer > 0 holds after every
sequence of GameState operations starting from the initial state. -/
theorem comboTimer_invariant_all_ops (muted : Bool) (ops : List GSOp) :
    comboTimerInv (runOps ops (GameState.init muted)) :=
  comboTimerInv_runOps ops _ (comboTimerInv_init muted)

/-- C6: reset() restores every session-scoped field (score, lives, combo,
currentSpeed, started, gameOver, comboTimer) to its initial value while
preserving bestScore, bestCombo and isMuted; and after a restart with
bestScore 50, scoring only 10 leaves bestScore at 50. -/
theorem reset_preserves_best (s : GameState) :
    s.reset.score = 0 ∧ s.reset.lives = GAMEPLAY_LIVES ∧ s.reset.combo = 0
    ∧ s.reset.currentSpeed = GAMEPLAY_AUTO_SPEED ∧ s.reset.started = false
    ∧ s.reset.gameOver = false ∧ s.reset.comboTimer = 0
    ∧ s.reset.bestScore = s.bestScore ∧ s.reset.bestCombo = s.bestCombo
    ∧ s.reset.isMuted = s.isMuted
    ∧ (s.bestScore = 50 → ((s.reset).addScore 10).2.bestScore = 50) := by
  refine ⟨rfl, rfl, rfl, rfl, rfl, rfl, rfl, rfl, rfl, rfl, ?_⟩
  intro h
  norm_num [GameState.reset, GameState.addScore, COMBO_MULTIPLIER_CAP, h]

/-- Witness for C6 at a concrete prior state with bestScore 50. -/
theorem reset_preserves_best_witness :
    ((({ GameState.init false with bestScore := 50 } : GameState).reset.addScore 10).2.bestScore = 50) :=
  (reset_preserves_best
    { GameState.init false with bestScore := 50 }).2.2.2.2.2.2.2.2.2.2 rfl

lemma runCallbacks_append {σ α : Type} (l1 l2 : List (EBCallback σ α))
    (data : α) (s : σ) :
    runCallbacks (l1 ++ l2) data s =
      ((runCallbacks l2 data (runCallbacks l1 data s).1).1,
        (runCallbacks l1 data s).2
          ++ (runCallbacks l2 data (runCallbacks l1 data s).1).2) := by
  induction l1 generalizing s with
  | nil => simp [runCallbacks]
  | cons cb rest ih => simp [runCallbacks, ih]

lemma runCallbacks_fst_foldl {σ α : Type} (cbs : List (EBCallback σ α))
    (data : α) (s : σ) :
    (runCallbacks cbs data s).1
      = cbs.foldl (fun st c => (c st data).1) s := by
  induction cbs generalizing s with
  | nil => rfl
  | cons cb rest ih => simp [runCallbacks, ih]

/-- C9: emit delivers synchronously in subscriber-registration order, and
a throwing handler does not prevent any later handler from running: on()
appends at the end of the topic's list; running the callbacks of a
concatenation runs the prefix first and then the suffix from the prefix's
resulting state, whatever errors the prefix logged; a single callback
contributes its own post-state and its own caught error; and the state
emit produces is the left fold of every registered callback, erroring or
not, in registration order. -/
theorem emit_in_order_error_isolated {σ α : Type} (bus : EventBus σ α)
    (event : String) (cb : EBCallback σ α) (l1 l2 : List (EBCallback σ α))
    (data : α) (s : σ) :
    ((bus.on event cb).listeners event = bus.listeners event ++ [cb])
    ∧ (runCallbacks (l1 ++ l2) data s =
        ((runCallbacks l2 data (runCallbacks l1 data s).1).1,
          (runCallbacks l1 data s).2
            ++ (runCallbacks l2 data (runCallbacks l1 data s).1).2))
    ∧ (runCallbacks [cb] data s = ((cb s data).1, (cb s data).2.toList))
    ∧ ((bus.emit event data s).1
        = (bus.listeners event).foldl (fun st c => (c st data).1) s) := by
  refine ⟨?_, runCallbacks_append l1 l2 data s, ?_, ?_⟩
  · simp [EventBus.on]
  · simp [runCallbacks]
  · exact runCallbacks_fst_foldl (bus.listeners event) data s

/-- C10: every collision predicate of the game reads only the horizontal
XZ coordinates: replacing the vertical coordinate of either position, in
any of the three predicates, never changes the result — in particular a
lobbed envelope at the top of its arc still registers a house hit. -/
theorem collision_ignores_vertical (e : Envelope) (h : House) (a : Agent)
    (p : PanicPoint) (playerPos : Vec3) (y1 y2 y3 y4 y5 y6 : ℚ) :
    Envelope.checkHouse { e with pos := e.pos.withY y1 }
        { h with pos := h.pos.withY y2 } = e.checkHouse h
    ∧ Agent.checkPlayer { a with pos := a.pos.withY y3 } (playerPos.withY y4)
        = a.checkPlayer playerPos
    ∧ PanicPoint.checkPlayer { p with pos := p.pos.withY y5 } (playerPos.withY y6)
        = p.checkPlayer playerPos := by
  refine ⟨?_, ?_, ?_⟩ <;>
    simp [Envelope.checkHouse, Agent.checkPlayer, PanicPoint.checkPlayer,
      Vec3.withY]

lemma countP_ite_singleton {α : Type} (p : α → Bool) (c : Prop) [Decidable c]
    (x : α) (hpx : p x = false) :
    List.countP p (if c then [x] else []) = 0 := by
  split <;> simp [hpx]

/-- C2: a house transitions unhit to hit at most once: hit() on an
already-hit house changes nothing and hitting twice equals hitting once;
and when two live envelopes both geometrically overlap the same unhit
house in the same frame's collision pass, exactly one HOUSE_HIT event is
emitted, the first envelope is retired, the second stays alive, and the
house pool records the single hit. -/
theorem house_hit_at_most_once (h : House) (e1 e2 : Envelope)
    (gs : GameState) (playerZ : ℚ)
    (hh : h.isHit = false)
    (ha1 : e1.alive = true) (ha2 : e2.alive = true)
    (hr : |h.pos.z - playerZ| < 50)
    (hd1 : (e1.pos.x - h.pos.x) ^ 2 + (e1.pos.z - h.pos.z) ^ 2
      < ENVELOPE_COLLISION_THRESHOLD ^ 2)
    (hd2 : (e2.pos.x - h.pos.x) ^ 2 + (e2.pos.z - h.pos.z) ^ 2
      < ENVELOPE_COLLISION_THRESHOLD ^ 2) :
    (∀ h' : House, h'.isHit = true → h'.hit = h')
    ∧ (h.hit).hit = h.hit
    ∧ ((checkEnvelopeHits playerZ [e1, e2] ⟨[h], gs, [], []⟩).2.events.countP
        (fun ev => ev.isHouseHit) = 1)
    ∧ (checkEnvelopeHits playerZ [e1, e2] ⟨[h], gs, [], []⟩).1
        = [{ e1 with alive := false }, e2]
    ∧ (checkEnvelopeHits playerZ [e1, e2] ⟨[h], gs, [], []⟩).2.houses
        = [h.hit] := by
  have hhit : h.hit.isHit = true := by simp [House.hit, hh]
  have hch1 : e1.checkHouse h = true := by
    simp [Envelope.checkHouse, ha1, hh, hd1]
  have hrange : List.range 1 = [0] := rfl
  have hnear : getHousesInRangeIdx [h] playerZ 50 = [0] := by
    simp [getHousesInRangeIdx, hrange, hh, hr]
  have hs1e : (scanHouses e1 [0] (⟨[h], gs, [], []⟩ : HitScanState)).1
      = { e1 with alive := false } := by
    simp [scanHouses, hh, hch1]
  have hs1h : (scanHouses e1 [0] (⟨[h], gs, [], []⟩ : HitScanState)).2.houses
      = [h.hit] := by
    simp [scanHouses, hh, hch1]
  have hs1cnt : ((scanHouses e1 [0] (⟨[h], gs, [], []⟩ : HitScanState)).2.events.countP
      (fun ev => ev.isHouseHit)) = 1 := by
    simp [scanHouses, hh, hch1, GameEvent.isHouseHit, List.countP_append,
      List.countP_cons, countP_ite_singleton]
  have hskip : ∀ st' : HitScanState, st'.houses = [h.hit] →
      scanHouses e2 [0] st' = (e2, st') := by
    intro st' hst
    simp [scanHouses, hst, hhit]
  have hmain : checkEnvelopeHits playerZ [e1, e2] ⟨[h], gs, [], []⟩
      = ([{ e1 with alive := false }, e2],
          (scanHouses e1 [0] (⟨[h], gs, [], []⟩ : HitScanState)).2) := by
    simp [checkEnvelopeHits, hnear, ha1, ha2, hskip _ hs1h, hs1e]
  refine ⟨?_, ?_, ?_, ?_, ?_⟩
  · intro h' hh'
    simp [House.hit, hh']
  · simp [House.hit, hh]
  · rw [hmain]
    exact hs1cnt
  · rw [hmain]
  · rw [hmain]
    exact hs1h

/-- Witness for C2: two concrete overlapping envelopes on one unhit house
produce exactly one HOUSE_HIT event, retire the first envelope and leave
the second alive. -/
theorem house_hit_at_most_once_witness :
    ((checkEnvelopeHits 0 [sampleEnvelopeA, sampleEnvelopeB]
        ⟨[sampleHouse], GameState.init false, [], []⟩).2.events.countP
      (fun ev => ev.isHouseHit) = 1)
    ∧ (checkEnvelopeHits 0 [sampleEnvelopeA, sampleEnvelopeB]
        ⟨[sampleHouse], GameState.init false, [], []⟩).1
      = [{ sampleEnvelopeA with alive := false }, sampleEnvelopeB] := by
  have h := house_hit_at_most_once sampleHouse sampleEnvelopeA sampleEnvelopeB
    (GameState.init false) 0 rfl rfl rfl
    (by norm_num [sampleHouse])
    (by norm_num [sampleHouse, sampleEnvelopeA, ENVELOPE_COLLISION_THRESHOLD])
    (by norm_num [sampleHouse, sampleEnvelopeB, ENVELOPE_COLLISION_THRESHOLD])
  exact ⟨h.2.2.1, h.2.2.2.1⟩

/-- C8: a near-miss with no slow-motion active scales currentSpeed by the
slow-mo factor 0.7, and when the timer expires in a later update the
system assigns currentSpeed back to exactly the value saved immediately
before the scaling — even if currentSpeed was changed to an arbitrary
value v during the effect window. -/
theorem slowmo_restores_saved_speed (s : SlowMoState) (v delta : ℚ)
    (hpos : s.hasLastPlayerPos = true)
    (hidle : s.slowMoTimer ≤ 0)
    (hexp : SPECTACLE_NEAR_MISS_SLOWMO_DURATION - delta ≤ 0) :
    (s.onNearMiss).currentSpeed
      = s.currentSpeed * SPECTACLE_NEAR_MISS_SLOWMO_FACTOR
    ∧ (({ s.onNearMiss with currentSpeed := v }).updateSlowMo delta).currentSpeed
      = s.currentSpeed := by
  have hrun : s.onNearMiss
      = { s with
          slowMoOriginalSpeed := s.currentSpeed
          currentSpeed := s.currentSpeed * SPECTACLE_NEAR_MISS_SLOWMO_FACTOR
          slowMoTimer := SPECTACLE_NEAR_MISS_SLOWMO_DURATION
          slowMoDuration := SPECTACLE_NEAR_MISS_SLOWMO_DURATION } := by
    simp [SlowMoState.onNearMiss, hpos, hidle]
  constructor
  · rw [hrun]
  · rw [hrun]
    simp [SlowMoState.updateSlowMo, SPECTACLE_NEAR_MISS_SLOWMO_DURATION, hexp]
    norm_num [SPECTACLE_NEAR_MISS_SLOWMO_DURATION] at hexp ⊢
    rw [if_pos hexp]

/-- Witness for C8 at a concrete pre-near-miss state with speed 8, a speed
bumped to 9 during the window, and an expiring delta of 1. -/
theorem slowmo_restores_saved_speed_witness :
    ((sampleSlowMo.onNearMiss).currentSpeed
      = 8 * SPECTACLE_NEAR_MISS_SLOWMO_FACTOR)
    ∧ ((({ sampleSlowMo.onNearMiss with currentSpeed := 9 }).updateSlowMo 1).currentSpeed
      = 8) := by
  have h := slowmo_restores_saved_speed sampleSlowMo 9 1 rfl
    (by norm_num [sampleSlowMo])
    (by norm_num [SPECTACLE_NEAR_MISS_SLOWMO_DURATION])
  exact ⟨h.1, h.2⟩

lemma zLoop_le_bound (z bound : ℚ) : zLoop z bound ≤ bound := by
  induction z, bound using zLoop.induct with
  | case1 z bound h ih =>
      rw [zLoop, dif_pos h]
      exact ih
  | case2 z bound h =>
      rw [zLoop, dif_neg h]
      exact le_of_not_lt h

lemma zLoop_le_self (z bound : ℚ) : zLoop z bound ≤ z := by
  induction z, bound using zLoop.induct with
  | case1 z bound h ih =>
      rw [zLoop, dif_pos h]
      have hstep : (0 : ℚ) < HOUSE_SPACING_Z := by norm_num [HOUSE_SPACING_Z]
      linarith
  | case2 z bound h =>
      rw [zLoop, dif_neg h]

lemma genRowsLoop_generatedZ (g : StreetGen) (bound : ℚ) :
    (genRowsLoop g bound).generatedZ = zLoop g.generatedZ bound := by
  induction g, bound using genRowsLoop.induct with
  | case1 g bound h ih =>
      rw [genRowsLoop, dif_pos h, zLoop, dif_pos h]
      simpa using ih
  | case2 g bound h =>
      rw [genRowsLoop, dif_neg h, zLoop, dif_neg h]

lemma update_generatedZ (g : StreetGen) (delta playerZ speed : ℚ) :
    (g.update delta playerZ speed).generatedZ
      = zLoop g.generatedZ (playerZ - HOUSE_SPAWN_DISTANCE) := by
  rw [← genRowsLoop_generatedZ]
  unfold StreetGen.update StreetGen.generateStreetSurface StreetGen.spawnAgent
    StreetGen.cleanup
  dsimp only
  split <;> split <;> rfl

lemma generateInitial_generatedZ (g : StreetGen) :
    (g.generateInitial).generatedZ = zLoop g.generatedZ (-HOUSE_SPAWN_DISTANCE) := by
  rw [← genRowsLoop_generatedZ]
  unfold StreetGen.generateInitial StreetGen.generateStreetSurface
  rfl

lemma zLoop_ten : zLoop 10 (-HOUSE_SPAWN_DISTANCE) = -80 := by
  norm_num [HOUSE_SPAWN_DISTANCE]
  iterate 16 (rw [zLoop]; norm_num [HOUSE_SPACING_Z])

/-- C7: the high-water mark generatedZ never increases during update;
after every update it sits at or beyond playerZ - SPAWN_DISTANCE (ahead
is more negative Z), so the spawn window is refilled within the same
update; and reset() re-initializes generatedZ to exactly the value a
fresh construction produces, -80. -/
theorem streetGen_window_invariant (g : StreetGen) (delta playerZ speed : ℚ)
    (rng : ℕ → ℚ) :
    (g.update delta playerZ speed).generatedZ ≤ g.generatedZ
    ∧ (g.update delta playerZ speed).generatedZ ≤ playerZ - HOUSE_SPAWN_DISTANCE
    ∧ (g.reset).generatedZ = (StreetGen.init rng).generatedZ
    ∧ (StreetGen.init rng).generatedZ = -80 := by
  have hinit : (StreetGen.init rng).generatedZ = -80 := by
    rw [StreetGen.init, generateInitial_generatedZ]
    exact zLoop_ten
  have hreset : (g.reset).generatedZ = -80 := by
    rw [StreetGen.reset, generateInitial_generatedZ]
    exact zLoop_ten
  refine ⟨?_, ?_, ?_, hinit⟩
  · rw [update_generatedZ]
    exact zLoop_le_self _ _
  · rw [update_generatedZ]
    exact zLoop_le_bound _ _
  · rw [hreset, hinit]
